import Mathlib

/-!
Shallow embedding of the route handlers of `src/index.js`, an Express +
Sequelize CRUD application over two tables, `User` and `Address`.

Modelling conventions:
* The relational store is a `DB`: a list of `User` rows and a list of
  `Address` rows.  Sequelize operations (`findAndCountAll`, `findByPk`,
  `create`, `update`, `destroy`) become pure functions on `DB`.
* Request bodies and query strings carry `Option String` fields: `none`
  models an absent field (`undefined` in JS), `some s` a submitted string.
  JS truthiness of such a value (`if (name)`) is `jsTruthy`: `undefined`
  and `""` are falsy, every other string truthy.
* Integer ids are `Nat`.  Ids and `createdAt` timestamps are generated by
  the storage backend, so handlers that insert a row take them as extra
  parameters (`newId`, `newTs`).
* An HTTP response is a `Response`: a redirect to a path, or a render of
  one of the app's templates with the data object the handler passes.
  A missing key of a render data object is `none`.
* `try`/`catch` around a storage access is modelled by handlers taking the
  storage result as an `Except String` value: `Except.error` is a thrown
  storage error, caught by the handler's `catch` branch.
-/

/-- A row of the `User` table. -/
structure UserRow where
  id : Nat
  name : String
  occupation : Option String
  newsletter : Bool
  createdAt : Nat
deriving DecidableEq

/-- A row of the `Address` table; `userId` is the foreign key to `User`. -/
structure AddressRow where
  id : Nat
  street : String
  number : Option String
  city : String
  userId : Nat
  createdAt : Nat
deriving DecidableEq

/-- The relational store: both tables. -/
structure DB where
  users : List UserRow
  addresses : List AddressRow
deriving DecidableEq

/-- JS truthiness of an optional string field: `undefined` and `""` are
falsy, any other string is truthy. -/
def jsTruthy : Option String → Bool
  | none => false
  | some s => s != ""

/-- The string value of a field known to be present (used only under a
`jsTruthy` guard, where the JS code uses the string directly). -/
def jsStr (o : Option String) : String := o.getD ""

/-- `s.trim()`: drop leading and trailing whitespace. -/
def jsTrim (s : String) : String :=
  ⟨((s.data.dropWhile Char.isWhitespace).reverse.dropWhile Char.isWhitespace).reverse⟩

/-- `x ? x.trim() : null` — the trimmed string when the field is truthy,
`null` otherwise (used for `occupation` and `number`). -/
def trimOrNull (o : Option String) : Option String :=
  if jsTruthy o then some (jsTrim (jsStr o)) else none

/-- Digit-prefix parse used by `parseInt`: the value of the leading run of
decimal digits, `none` (NaN) when there is no leading digit. -/
def jsDigits (cs : List Char) : Option Nat :=
  let ds := cs.takeWhile Char.isDigit
  if ds.isEmpty then none
  else some (ds.foldl (fun acc c => acc * 10 + (c.toNat - 48)) 0)

/-- `parseInt(x)` on an optional string, radix 10: skip leading
whitespace, optional sign, then the longest digit prefix; `none` is NaN
(absent field, or no digits). -/
def jsParseInt (o : Option String) : Option Int :=
  match o with
  | none => none
  | some s =>
    match s.data.dropWhile Char.isWhitespace with
    | '-' :: r => (jsDigits r).map (fun n => -(n : Int))
    | '+' :: r => (jsDigits r).map (fun n => (n : Int))
    | cs => (jsDigits cs).map (fun n => (n : Int))

/-- `v || d` on a parsed number: NaN (`none`) and `0` are falsy and give
the default `d`; any other number is kept. -/
def jsOr (v : Option Int) (d : Int) : Int :=
  match v with
  | none => d
  | some n => if n = 0 then d else n

/-- Data object rendered by the `home` template.  The error branch of the
listing route omits every key but `users` and `error`. -/
structure HomeData where
  users : List UserRow
  currentPage : Option Int
  totalPages : Option Int
  q : Option String
  newsletter : Option String
  error : Option String
deriving DecidableEq

/-- The `formData` object echoed back to the `adduser` template: the raw
submitted fields. -/
structure FormData where
  name : Option String
  occupation : Option String
  newsletter : Option String
deriving DecidableEq

/-- An HTTP response of this app: a redirect, or a render of one of the
templates with its data. -/
inductive Response where
  | redirect (path : String)
  | renderHome (data : HomeData)
  | renderAdduser (error : Option String) (formData : Option FormData)
  | renderUserview (user : Option (UserRow × List AddressRow)) (error : Option String)
  | renderUseredit (user : Option (UserRow × List AddressRow)) (error : Option String)
deriving DecidableEq

/-- `Address.destroy({ where: { userId: id } })`. -/
def addressDestroyWhereUserId (db : DB) (id : Nat) : DB :=
  { db with addresses := db.addresses.filter (fun a => !(a.userId == id)) }

/-- `Address.destroy({ where: { id } })`. -/
def addressDestroyWhereId (db : DB) (id : Nat) : DB :=
  { db with addresses := db.addresses.filter (fun a => !(a.id == id)) }

/-- `User.destroy({ where: { id } })`: the new store and the number of
deleted rows. -/
def userDestroyWhereId (db : DB) (id : Nat) : DB × Nat :=
  ({ db with users := db.users.filter (fun u => !(u.id == id)) },
   (db.users.filter (fun u => u.id == id)).length)

/-- `POST /users/delete/:id` (src/index.js lines 170-181): destroy the
user's addresses, then the user, then redirect to `/`. -/
def postUsersDelete (db : DB) (id : Nat) : DB × Response :=
  let db1 := addressDestroyWhereUserId db id
  let db2 := (userDestroyWhereId db1 id).1
  (db2, .redirect "/")

/-- `POST /address/delete` (src/index.js lines 209-219): destroy the
address with the submitted id, then redirect to the submitting user's
edit page when `userId` is truthy, else to `/`.  `userId : Option Nat`
models the body field: `none` is an absent (or empty, hence falsy)
`userId`. -/
def postAddressDelete (id : Nat) (userId : Option Nat) (db : DB) : DB × Response :=
  (addressDestroyWhereId db id,
   .redirect (match userId with
     | some u => "/users/edit/" ++ toString u
     | none => "/"))

/-- The submitted body of `POST /users/create`. -/
structure CreateBody where
  name : Option String
  occupation : Option String
  newsletter : Option String
deriving DecidableEq

/-- The `userData` object built by the create and update handlers. -/
structure UserData where
  name : String
  occupation : Option String
  newsletter : Bool
deriving DecidableEq

/-- `User.create(userData)`: append the new row; the storage backend
generates `newId` and the `createdAt` timestamp `newTs`. -/
def userCreate (db : DB) (d : UserData) (newId newTs : Nat) : DB :=
  { db with users := db.users ++
      [{ id := newId, name := d.name, occupation := d.occupation,
         newsletter := d.newsletter, createdAt := newTs }] }

/-- `POST /users/create` (src/index.js lines 93-117): reject when `name`
is falsy or trims to fewer than 2 characters, re-rendering the form with
an error and the raw submitted values; otherwise persist the trimmed data
and redirect to `/`. -/
def postUsersCreate (body : CreateBody) (db : DB) (newId newTs : Nat) :
    DB × Response :=
  if ¬ jsTruthy body.name ∨ (jsTrim (jsStr body.name)).length < 2 then
    (db, .renderAdduser (some "Nome deve ter pelo menos 2 caracteres")
      (some { name := body.name, occupation := body.occupation,
              newsletter := body.newsletter }))
  else
    let userData : UserData :=
      { name := jsTrim (jsStr body.name),
        occupation := trimOrNull body.occupation,
        newsletter := body.newsletter == some "on" }
    (userCreate db userData newId newTs, .redirect "/")

/-- `User.findByPk(id, { include: addresses })`: the user row with that
id together with its addresses, or `none` when no row matches. -/
def findByPk (db : DB) (id : Nat) : Option (UserRow × List AddressRow) :=
  match db.users.find? (fun u => u.id == id) with
  | none => none
  | some u => some (u, db.addresses.filter (fun a => a.userId == id))

/-- The body of `GET /users/:id` (src/index.js lines 120-131), as a
function of the `findByPk` outcome (`Except.error` = thrown storage
error, handled by the `catch`). -/
def getUsersShowCore (result : Except String (Option (UserRow × List AddressRow))) :
    Response :=
  match result with
  | .error _ => .renderUserview none (some "Erro ao carregar usuário")
  | .ok none => .renderUserview none (some "Usuário não encontrado")
  | .ok (some u) => .renderUserview (some u) none

/-- `GET /users/:id` when the storage lookup succeeds. -/
def getUsersShow (db : DB) (id : Nat) : Response :=
  getUsersShowCore (.ok (findByPk db id))

/-- The body of `GET /users/edit/:id` (src/index.js lines 134-144), as a
function of the `findByPk` outcome. -/
def getUsersEditCore (result : Except String (Option (UserRow × List AddressRow))) :
    Response :=
  match result with
  | .error _ => .redirect "/"
  | .ok none => .redirect "/"
  | .ok (some u) => .renderUseredit (some u) none

/-- `GET /users/edit/:id` when the storage lookup succeeds. -/
def getUsersEdit (db : DB) (id : Nat) : Response :=
  getUsersEditCore (.ok (findByPk db id))

/-- The submitted body of `POST /users/update`; `id` is the submitted
user id. -/
structure UpdateBody where
  id : Nat
  name : Option String
  occupation : Option String
  newsletter : Option String
deriving DecidableEq

/-- `User.update(updateData, { where: { id } })`: overwrite the mutable
columns of every row whose id matches; also return the updated-row
count. -/
def userUpdateWhereId (db : DB) (id : Nat) (d : UserData) : DB × Nat :=
  ({ db with users := db.users.map (fun u =>
      if u.id == id then
        { u with name := d.name, occupation := d.occupation,
                 newsletter := d.newsletter }
      else u) },
   (db.users.filter (fun u => u.id == id)).length)

/-- `POST /users/update` (src/index.js lines 147-167): silently redirect
to the user's edit page when `name` is falsy or trims short; otherwise
update where the id matches and redirect to `/`. -/
def postUsersUpdate (body : UpdateBody) (db : DB) : DB × Response :=
  if ¬ jsTruthy body.name ∨ (jsTrim (jsStr body.name)).length < 2 then
    (db, .redirect ("/users/edit/" ++ toString body.id))
  else
    let updateData : UserData :=
      { name := jsTrim (jsStr body.name),
        occupation := trimOrNull body.occupation,
        newsletter := body.newsletter == some "on" }
    ((userUpdateWhereId db body.id updateData).1, .redirect "/")

/-- The submitted body of `POST /address/create`; `userId` is the owning
user's id. -/
structure AddrBody where
  userId : Nat
  street : Option String
  number : Option String
  city : Option String
deriving DecidableEq

/-- `POST /address/create` (src/index.js lines 188-206): reject (bare
redirect to the owner's edit page) when `street` is falsy or trims to
fewer than 5 characters, or `city` is falsy or trims to fewer than 2;
otherwise persist the trimmed address and redirect to the same page. -/
def postAddressCreate (body : AddrBody) (db : DB) (newId newTs : Nat) :
    DB × Response :=
  if ¬ jsTruthy body.street ∨ (jsTrim (jsStr body.street)).length < 5
      ∨ ¬ jsTruthy body.city ∨ (jsTrim (jsStr body.city)).length < 2 then
    (db, .redirect ("/users/edit/" ++ toString body.userId))
  else
    ({ db with addresses := db.addresses ++
        [{ id := newId, street := jsTrim (jsStr body.street),
           number := trimOrNull body.number, city := jsTrim (jsStr body.city),
           userId := body.userId, createdAt := newTs }] },
     .redirect ("/users/edit/" ++ toString body.userId))

/-- Does the character list start with the pattern `pat`? -/
def charsStart (pat : List Char) : List Char → Bool
  | [] => pat.isEmpty
  | b :: bs =>
    match pat with
    | [] => true
    | a :: as => a == b && charsStart as bs

/-- Does the character list contain `pat` as a contiguous run?  Models
the SQL `LIKE '%q%'` filter the listing builds for `q`. -/
def charsHave (pat : List Char) : List Char → Bool
  | [] => pat.isEmpty
  | b :: bs => charsStart pat (b :: bs) || charsHave pat bs

/-- The `where` predicate of the listing (src/index.js lines 57-60): when
`q` is truthy, `name LIKE '%q%'`; when `newsletter` is truthy,
`newsletter = (newsletter === 'true')`. -/
def whereMatch (qp nl : Option String) (u : UserRow) : Bool :=
  (if jsTruthy qp then charsHave (jsStr qp).data u.name.data else true)
  && (if jsTruthy nl then u.newsletter == (jsStr nl == "true") else true)

/-- Insert a row into a list already ordered by `createdAt` descending. -/
def insertDescByCreatedAt (u : UserRow) : List UserRow → List UserRow
  | [] => [u]
  | v :: vs =>
    if v.createdAt ≤ u.createdAt then u :: v :: vs
    else v :: insertDescByCreatedAt u vs

/-- `order: [['createdAt', 'DESC']]` — sort by `createdAt` descending. -/
def orderByCreatedAtDesc : List UserRow → List UserRow
  | [] => []
  | u :: us => insertDescByCreatedAt u (orderByCreatedAtDesc us)

/-- Result of `User.findAndCountAll`: the page of rows and the total
matching-row count. -/
structure FindResult where
  rows : List UserRow
  count : Nat
deriving DecidableEq

/-- `User.findAndCountAll({ where, order, limit, offset })`: the count of
all matching rows, and the matching rows ordered by `createdAt`
descending with `offset` skipped and at most `limit` kept.  A negative
`limit` or `offset` is rejected by the SQL backend, which the handler's
`catch` sees as a thrown error. -/
def findAndCountAll (db : DB) (qp nl : Option String) (limit offset : Int) :
    Except String FindResult :=
  if limit < 0 ∨ offset < 0 then .error "invalid LIMIT or OFFSET"
  else
    let matching := db.users.filter (whereMatch qp nl)
    .ok { rows := ((orderByCreatedAtDesc matching).drop offset.toNat).take limit.toNat,
          count := matching.length }

/-- `Math.ceil(count / lim)` for a positive integer `lim` (its only use:
the listing reaches it with `limit ≥ 1`). -/
def jsCeilDiv (count lim : Nat) : Nat := (count + lim - 1) / lim

/-- The query string of `GET /`. -/
structure ListQuery where
  page : Option String
  limit : Option String
  q : Option String
  newsletter : Option String
deriving DecidableEq

/-- `GET /` (src/index.js lines 51-81): coerce `page` (default 1) and
`limit` (default 3), compute `offset = (page-1)*limit`, run the
count-and-fetch, and render `home`; any thrown storage error is caught,
logged, and rendered as an empty listing with a generic error.  Returns
the response together with the `console.error` log lines. -/
def homeHandler (req : ListQuery) (dbr : Except String DB) :
    Response × List String :=
  let page := jsOr (jsParseInt req.page) 1
  let limit := jsOr (jsParseInt req.limit) 3
  let offset := (page - 1) * limit
  match dbr.bind (fun db => findAndCountAll db req.q req.newsletter limit offset) with
  | .error e =>
    (.renderHome { users := [], currentPage := none, totalPages := none,
                   q := none, newsletter := none,
                   error := some "Erro ao carregar usuários" },
     ["Erro ao carregar usuários: " ++ e])
  | .ok r =>
    (.renderHome { users := r.rows, currentPage := some page,
                   totalPages := some (Int.ofNat (jsCeilDiv r.count limit.toNat)),
                   q := req.q, newsletter := req.newsletter, error := none },
     [])

/-- A sample store for concrete instances: one user who owns three
addresses. -/
def sampleDb : DB :=
  { users := [{ id := 7, name := "Ana", occupation := none,
                newsletter := false, createdAt := 0 }],
    addresses :=
      [{ id := 1, street := "Rua Alfa 10", number := none, city := "Sao Paulo",
         userId := 7, createdAt := 0 },
       { id := 2, street := "Rua Beta 20", number := none, city := "Sao Paulo",
         userId := 7, createdAt := 1 },
       { id := 3, street := "Rua Gama 30", number := none, city := "Sao Paulo",
         userId := 7, createdAt := 2 }] }

/-- A sample store for the listing: four users, no addresses. -/
def sampleUsers : DB :=
  { users := [{ id := 1, name := "Alice", occupation := none,
                newsletter := true, createdAt := 4 },
              { id := 2, name := "Bruno", occupation := some "Dev",
                newsletter := false, createdAt := 3 },
              { id := 3, name := "Carla", occupation := none,
                newsletter := true, createdAt := 2 },
              { id := 4, name := "Davi", occupation := none,
                newsletter := false, createdAt := 1 }],
    addresses := [] }

/-- C1: deleting a user removes every address whose `userId` is that id
(for any prior number of such rows, including 0, 1 and 3), does so by
first destroying the addresses and then the user row, and redirects to
the listing root whether or not any row was deleted. -/
theorem postUsersDelete_cascade (db : DB) (id : Nat) :
    (∀ a ∈ (postUsersDelete db id).1.addresses, a.userId ≠ id)
    ∧ (postUsersDelete db id).1
        = (userDestroyWhereId (addressDestroyWhereUserId db id) id).1
    ∧ (postUsersDelete db id).2 = Response.redirect "/" := by
  refine ⟨?_, rfl, rfl⟩
  intro a ha
  simp only [postUsersDelete, userDestroyWhereId, addressDestroyWhereUserId,
    List.mem_filter, Bool.not_eq_true', beq_eq_false_iff_ne, ne_eq] at ha
  exact ha.2

/-- C1 instance: the sample user owns 3 addresses; afterwards none
reference id 7 and the response is the root redirect. -/
theorem postUsersDelete_cascade_witness :
    sampleDb.addresses.countP (fun a => a.userId == 7) = 3
    ∧ (∀ a ∈ (postUsersDelete sampleDb 7).1.addresses, a.userId ≠ 7)
    ∧ (postUsersDelete sampleDb 7).2 = Response.redirect "/" :=
  ⟨by decide, (postUsersDelete_cascade sampleDb 7).1,
    (postUsersDelete_cascade sampleDb 7).2.2⟩

/-- C8: address delete removes exactly the rows whose id matches the
submitted id — the submitted `userId` plays no part in what is deleted —
leaves the user table alone, and redirects to the submitted user's edit
page when `userId` is supplied, else to the listing root. -/
theorem postAddressDelete_spec (db : DB) (id : Nat) (userId : Option Nat) :
    (∀ a ∈ db.addresses,
        (a ∈ (postAddressDelete id userId db).1.addresses ↔ a.id ≠ id))
    ∧ (postAddressDelete id userId db).1.users = db.users
    ∧ (∀ u, userId = some u →
        (postAddressDelete id userId db).2
          = Response.redirect ("/users/edit/" ++ toString u))
    ∧ (userId = none →
        (postAddressDelete id userId db).2 = Response.redirect "/") := by
  refine ⟨?_, rfl, ?_, ?_⟩
  · intro a ha
    simp [postAddressDelete, addressDestroyWhereId, List.mem_filter, ha]
  · intro u hu; subst hu; rfl
  · intro hu; subst hu; rfl

/-- C8 instance: id 9 with `userId` absent redirects to `/`. -/
theorem postAddressDelete_spec_witness :
    (postAddressDelete 9 none sampleDb).2 = Response.redirect "/" :=
  (postAddressDelete_spec sampleDb 9 none).2.2.2 rfl

/-- C9: when the listing's storage query throws, the handler renders the
home template with an empty user list and the generic error flag (no
other key set), logs the failure, and returns normally instead of
propagating it. -/
theorem homeHandler_storage_failure (req : ListQuery) (e : String) :
    homeHandler req (.error e)
      = (.renderHome { users := [], currentPage := none, totalPages := none,
                       q := none, newsletter := none,
                       error := some "Erro ao carregar usuários" },
         ["Erro ao carregar usuários: " ++ e]) := rfl

/-- C6: when no user matches the id — and likewise when the lookup
throws — the detail view renders with an error message while the edit
view redirects to the listing root. -/
theorem userLookup_fallbacks (db : DB) (id : Nat) (e : String)
    (h : findByPk db id = none) :
    getUsersShow db id
      = Response.renderUserview none (some "Usuário não encontrado")
    ∧ getUsersEdit db id = Response.redirect "/"
    ∧ getUsersShowCore (.error e)
      = Response.renderUserview none (some "Erro ao carregar usuário")
    ∧ getUsersEditCore (.error e) = Response.redirect "/" := by
  refine ⟨?_, ?_, rfl, rfl⟩
  · simp [getUsersShow, getUsersShowCore, h]
  · simp [getUsersEdit, getUsersEditCore, h]

/-- C6 instance: id 5 matches no user of the sample store. -/
theorem userLookup_fallbacks_witness :
    getUsersShow sampleDb 5
      = Response.renderUserview none (some "Usuário não encontrado")
    ∧ getUsersEdit sampleDb 5 = Response.redirect "/"
    ∧ getUsersShowCore (.error "falha")
      = Response.renderUserview none (some "Erro ao carregar usuário")
    ∧ getUsersEditCore (.error "falha") = Response.redirect "/" :=
  userLookup_fallbacks sampleDb 5 "falha" rfl

/-- C4: a create request whose name is absent or trims to fewer than 2
characters persists nothing and re-renders the create form with the
validation error and the raw submitted field values. -/
theorem postUsersCreate_rejects_short_name (body : CreateBody) (db : DB)
    (newId newTs : Nat)
    (h : body.name = none ∨ ∃ s, body.name = some s ∧ (jsTrim s).length < 2) :
    (postUsersCreate body db newId newTs).1 = db
    ∧ (postUsersCreate body db newId newTs).2
        = Response.renderAdduser (some "Nome deve ter pelo menos 2 caracteres")
            (some { name := body.name, occupation := body.occupation,
                    newsletter := body.newsletter }) := by
  have hc : ¬ jsTruthy body.name ∨ (jsTrim (jsStr body.name)).length < 2 := by
    rcases h with h | ⟨s, hs, hlen⟩
    · left; simp [h, jsTruthy]
    · right; simpa [hs, jsStr] using hlen
  rw [postUsersCreate, if_pos hc]
  exact ⟨rfl, rfl⟩

/-- C4 instance: name `"A"` (one character) is rejected; the store is
unchanged and the raw values come back with the error message. -/
theorem postUsersCreate_rejects_short_name_witness :
    (postUsersCreate { name := some "A", occupation := some "Dev", newsletter := some "on" }
        sampleDb 9 9).1 = sampleDb
    ∧ (postUsersCreate { name := some "A", occupation := some "Dev", newsletter := some "on" }
        sampleDb 9 9).2
        = Response.renderAdduser (some "Nome deve ter pelo menos 2 caracteres")
            (some { name := some "A", occupation := some "Dev", newsletter := some "on" }) :=
  postUsersCreate_rejects_short_name
    { name := some "A", occupation := some "Dev", newsletter := some "on" }
    sampleDb 9 9 (Or.inr ⟨"A", rfl, by decide⟩)

/-- C5: an update whose name is missing or trims to fewer than 2
characters changes no row and silently redirects to that user's edit
page; otherwise the update rewrites exactly the rows whose id equals the
submitted id and redirects to the listing root whether or not any row
matched. -/
theorem postUsersUpdate_spec (body : UpdateBody) (db : DB) :
    ((body.name = none ∨ ∃ s, body.name = some s ∧ (jsTrim s).length < 2) →
      (postUsersUpdate body db).1 = db
      ∧ (postUsersUpdate body db).2
          = Response.redirect ("/users/edit/" ++ toString body.id))
    ∧ (∀ s, body.name = some s → 2 ≤ (jsTrim s).length →
      (postUsersUpdate body db).1.users
          = db.users.map (fun u =>
              if u.id == body.id then
                { u with name := jsTrim s,
                         occupation := trimOrNull body.occupation,
                         newsletter := body.newsletter == some "on" }
              else u)
      ∧ (∀ u ∈ db.users, u.id ≠ body.id → u ∈ (postUsersUpdate body db).1.users)
      ∧ (postUsersUpdate body db).2 = Response.redirect "/") := by
  constructor
  · intro h
    have hc : ¬ jsTruthy body.name ∨ (jsTrim (jsStr body.name)).length < 2 := by
      rcases h with h | ⟨s, hs, hlen⟩
      · left; simp [h, jsTruthy]
      · right; simpa [hs, jsStr] using hlen
    rw [postUsersUpdate, if_pos hc]
    exact ⟨rfl, rfl⟩
  · intro s hs hlen
    have hne : s ≠ "" := by intro h; subst h; exact absurd hlen (by decide)
    have hc : ¬ (¬ jsTruthy body.name ∨ (jsTrim (jsStr body.name)).length < 2) := by
      push_neg
      exact ⟨by simp [hs, jsTruthy, hne], by simpa [hs, jsStr] using hlen⟩
    rw [postUsersUpdate, if_neg hc]
    refine ⟨?_, ?_, rfl⟩
    · simp [userUpdateWhereId, hs, jsStr]
    · intro u hu hne2
      simp only [userUpdateWhereId]
      exact List.mem_map.mpr ⟨u, hu, by simp [hne2]⟩

/-- C5 instance: id 5 with name `""` changes nothing and redirects to
`/users/edit/5`. -/
theorem postUsersUpdate_spec_witness :
    (postUsersUpdate { id := 5, name := some "", occupation := none, newsletter := none }
        sampleDb).1 = sampleDb
    ∧ (postUsersUpdate { id := 5, name := some "", occupation := none, newsletter := none }
        sampleDb).2 = Response.redirect "/users/edit/5" := by
  have h := (postUsersUpdate_spec
    { id := 5, name := some "", occupation := none, newsletter := none } sampleDb).1
    (Or.inr ⟨"", rfl, by decide⟩)
  exact ⟨h.1, h.2.trans (by decide)⟩

/-- C7: an address create whose street is absent or trims below 5
characters, or whose city is absent or trims below 2, persists nothing
and redirects (with no error payload) to the owning user's edit page;
otherwise it appends the trimmed address for the submitted `userId` and
redirects to the same page. -/
theorem postAddressCreate_spec (body : AddrBody) (db : DB) (newId newTs : Nat) :
    ((body.street = none ∨ (∃ s, body.street = some s ∧ (jsTrim s).length < 5)
        ∨ body.city = none ∨ (∃ c, body.city = some c ∧ (jsTrim c).length < 2)) →
      (postAddressCreate body db newId newTs).1 = db
      ∧ (postAddressCreate body db newId newTs).2
          = Response.redirect ("/users/edit/" ++ toString body.userId))
    ∧ (∀ s c, body.street = some s → 5 ≤ (jsTrim s).length →
        body.city = some c → 2 ≤ (jsTrim c).length →
      (postAddressCreate body db newId newTs).1.addresses
          = db.addresses ++
            [{ id := newId, street := jsTrim s, number := trimOrNull body.number,
               city := jsTrim c, userId := body.userId, createdAt := newTs }]
      ∧ (postAddressCreate body db newId newTs).1.users = db.users
      ∧ (trimOrNull body.number = none
          ∨ ∃ n, body.number = some n ∧ trimOrNull body.number = some (jsTrim n))
      ∧ (postAddressCreate body db newId newTs).2
          = Response.redirect ("/users/edit/" ++ toString body.userId)) := by
  constructor
  · intro h
    have hc : ¬ jsTruthy body.street ∨ (jsTrim (jsStr body.street)).length < 5
        ∨ ¬ jsTruthy body.city ∨ (jsTrim (jsStr body.city)).length < 2 := by
      rcases h with h | ⟨s, hs, hlen⟩ | h | ⟨c, hcs, hlen⟩
      · exact Or.inl (by simp [h, jsTruthy])
      · exact Or.inr (Or.inl (by simpa [hs, jsStr] using hlen))
      · exact Or.inr (Or.inr (Or.inl (by simp [h, jsTruthy])))
      · exact Or.inr (Or.inr (Or.inr (by simpa [hcs, jsStr] using hlen)))
    rw [postAddressCreate, if_pos hc]
    exact ⟨rfl, rfl⟩
  · intro s c hs hlens hcs hlenc
    have hnes : s ≠ "" := by intro h; subst h; exact absurd hlens (by decide)
    have hnec : c ≠ "" := by intro h; subst h; exact absurd hlenc (by decide)
    have hc : ¬ (¬ jsTruthy body.street ∨ (jsTrim (jsStr body.street)).length < 5
        ∨ ¬ jsTruthy body.city ∨ (jsTrim (jsStr body.city)).length < 2) := by
      push_neg
      exact ⟨by simp [hs, jsTruthy, hnes], by simpa [hs, jsStr] using hlens,
        by simp [hcs, jsTruthy, hnec], by simpa [hcs, jsStr] using hlenc⟩
    rw [postAddressCreate, if_neg hc]
    refine ⟨by simp [hs, hcs, jsStr], rfl, ?_, rfl⟩
    rcases hn : body.number with _ | n
    · exact Or.inl rfl
    · by_cases hne : n = ""
      · subst hne; exact Or.inl (by decide)
      · exact Or.inr ⟨n, rfl, by simp [trimOrNull, jsTruthy, jsStr, hne]⟩

/-- C7 instance: street `"St"` (2 characters) is rejected: the store is
unchanged and the response is the bare redirect to `/users/edit/7`. -/
theorem postAddressCreate_spec_witness :
    (postAddressCreate { userId := 7, street := some "St", number := none,
                         city := some "Sao Paulo" } sampleDb 9 9).1 = sampleDb
    ∧ (postAddressCreate { userId := 7, street := some "St", number := none,
                           city := some "Sao Paulo" } sampleDb 9 9).2
        = Response.redirect "/users/edit/7" := by
  have h := (postAddressCreate_spec
    { userId := 7, street := some "St", number := none, city := some "Sao Paulo" }
    sampleDb 9 9).1 (Or.inr (Or.inl ⟨"St", rfl, by decide⟩))
  exact ⟨h.1, h.2.trans (by decide)⟩

/-- C3 (amended): a create whose name trims to at least 2 characters
persists the trimmed name, the trimmed occupation when occupation is a
present non-empty string and null when it is absent or empty, and
newsletter true exactly when the submitted value is `"on"`; it then
redirects to the listing root. -/
theorem postUsersCreate_persists_trimmed (body : CreateBody) (db : DB)
    (newId newTs : Nat) (s : String) (hs : body.name = some s)
    (hlen : 2 ≤ (jsTrim s).length) :
    (postUsersCreate body db newId newTs).1.users
        = db.users ++
          [{ id := newId, name := jsTrim s,
             occupation := match body.occupation with
               | none => none
               | some o => if o = "" then none else some (jsTrim o),
             newsletter := body.newsletter == some "on", createdAt := newTs }]
    ∧ (postUsersCreate body db newId newTs).1.addresses = db.addresses
    ∧ (postUsersCreate body db newId newTs).2 = Response.redirect "/" := by
  have hne : s ≠ "" := by intro h; subst h; exact absurd hlen (by decide)
  have hc : ¬ (¬ jsTruthy body.name ∨ (jsTrim (jsStr body.name)).length < 2) := by
    push_neg
    exact ⟨by simp [hs, jsTruthy, hne], by simpa [hs, jsStr] using hlen⟩
  rw [postUsersCreate, if_neg hc]
  refine ⟨?_, rfl, rfl⟩
  rcases body.occupation with _ | o
  · simp [userCreate, hs, jsStr, trimOrNull, jsTruthy]
  · by_cases ho : o = ""
    · subst ho; simp [userCreate, hs, jsStr, trimOrNull, jsTruthy]
    · simp [userCreate, hs, jsStr, trimOrNull, jsTruthy, ho]

/-- C3 counterexample to the claim as stated: with name `"Bob"` and a
present-but-empty occupation the code persists occupation null, not the
trimmed empty string the claim's reading (`trim` of the submitted
occupation whenever it is present) predicts. -/
theorem postUsersCreate_empty_occupation_cex :
    (postUsersCreate { name := some "Bob", occupation := some "", newsletter := none }
        { users := [], addresses := [] } 1 0).1.users
      = [{ id := 1, name := "Bob", occupation := none, newsletter := false,
           createdAt := 0 }]
    ∧ ¬ ((postUsersCreate { name := some "Bob", occupation := some "", newsletter := none }
        { users := [], addresses := [] } 1 0).1.users
      = [{ id := 1, name := "Bob", occupation := Option.map jsTrim (some ""),
           newsletter := false, createdAt := 0 }]) := by
  constructor <;> decide

/-- C3 instance: name `"  Bob  "`, occupation and newsletter absent
persists name `"Bob"`, occupation null, newsletter false. -/
theorem postUsersCreate_persists_trimmed_witness :
    (postUsersCreate { name := some "  Bob  ", occupation := none, newsletter := none }
        { users := [], addresses := [] } 1 0).1.users
      = [{ id := 1, name := "Bob", occupation := none, newsletter := false,
           createdAt := 0 }]
    ∧ (postUsersCreate { name := some "  Bob  ", occupation := none, newsletter := none }
        { users := [], addresses := [] } 1 0).1.addresses = []
    ∧ (postUsersCreate { name := some "  Bob  ", occupation := none, newsletter := none }
        { users := [], addresses := [] } 1 0).2 = Response.redirect "/" := by
  have h := postUsersCreate_persists_trimmed
    { name := some "  Bob  ", occupation := none, newsletter := none }
    { users := [], addresses := [] } 1 0 "  Bob  " rfl (by decide)
  exact ⟨h.1.trans (by decide), h.2.1, h.2.2⟩

/-- Inserting into the descending sort keeps length (+1). -/
theorem insertDescByCreatedAt_length (u : UserRow) (l : List UserRow) :
    (insertDescByCreatedAt u l).length = l.length + 1 := by
  induction l with
  | nil => rfl
  | cons v vs ih =>
    simp only [insertDescByCreatedAt]
    split
    · simp
    · simp [ih]

/-- The descending sort keeps the list length. -/
theorem orderByCreatedAtDesc_length (l : List UserRow) :
    (orderByCreatedAtDesc l).length = l.length := by
  induction l with
  | nil => rfl
  | cons u us ih => simp [orderByCreatedAtDesc, insertDescByCreatedAt_length, ih]

/-- `(c + l - 1) / l` is the rational ceiling of `c / l` when `l > 0`. -/
theorem jsCeilDiv_eq_ceil (c l : Nat) (hl : 0 < l) :
    jsCeilDiv c l = ⌈(c : ℚ) / (l : ℚ)⌉₊ := by
  have hlq : (0 : ℚ) < l := by exact_mod_cast hl
  rcases Nat.eq_zero_or_pos c with hc | hc
  · subst hc
    simp [jsCeilDiv, Nat.div_eq_of_lt (Nat.sub_lt hl Nat.one_pos)]
  · simp only [jsCeilDiv]
    set n := (c + l - 1) / l with hn
    have hdm := Nat.div_add_mod (c + l - 1) l
    have hmlt : (c + l - 1) % l < l := Nat.mod_lt _ hl
    set K := l * n with hK
    have h1 : K ≤ c + l - 1 := by omega
    have h2 : c + l - 1 < K + l := by omega
    have hn1 : 1 ≤ n := by
      rw [hn]
      exact (Nat.one_le_div_iff hl).mpr (by omega)
    have hlK : l ≤ K := by
      rw [hK]
      exact le_mul_of_one_le_right (Nat.zero_le l) hn1
    have hcle : c ≤ K := by omega
    have hnl : (n - 1) * l = K - l := by
      rw [Nat.sub_mul, one_mul, Nat.mul_comm n l, ← hK]
    have hlt : (n - 1) * l < c := by omega
    symm
    rw [Nat.ceil_eq_iff (by omega : n ≠ 0)]
    constructor
    · rw [lt_div_iff₀ hlq]
      exact_mod_cast hlt
    · rw [div_le_iff₀ hlq]
      have hcn : c ≤ n * l := by
        rw [Nat.mul_comm n l, ← hK]
        exact hcle
      exact_mod_cast hcn

/-- C2: for valid coerced page/limit (`page ≥ 1`, `limit ≥ 1`) the listing
queries with `offset = (page-1)*limit`, gets back at most `limit` rows,
and renders `totalPages = ceil(count / limit)` for the matching row
count. -/
theorem listing_pagination (db : DB) (qp nl ps ls : Option String)
    (page limit : Int)
    (hps : jsOr (jsParseInt ps) 1 = page) (hls : jsOr (jsParseInt ls) 3 = limit)
    (hp : 1 ≤ page) (hl : 1 ≤ limit) :
    ∃ r : FindResult,
      findAndCountAll db qp nl limit ((page - 1) * limit) = .ok r
      ∧ (r.rows.length : Int) ≤ limit
      ∧ jsCeilDiv r.count limit.toNat = ⌈(r.count : ℚ) / (limit : ℚ)⌉₊
      ∧ homeHandler { page := ps, limit := ls, q := qp, newsletter := nl } (.ok db)
          = (Response.renderHome
              { users := r.rows, currentPage := some page,
                totalPages := some (Int.ofNat (jsCeilDiv r.count limit.toNat)),
                q := qp, newsletter := nl, error := none }, []) := by
  have hoff : ¬ (limit < 0 ∨ (page - 1) * limit < 0) := by
    push_neg
    exact ⟨by omega, mul_nonneg (by omega) (by omega)⟩
  have hfind : findAndCountAll db qp nl limit ((page - 1) * limit)
      = Except.ok
          { rows := ((orderByCreatedAtDesc (db.users.filter (whereMatch qp nl))).drop
              ((page - 1) * limit).toNat).take limit.toNat,
            count := (db.users.filter (whereMatch qp nl)).length } := by
    rw [findAndCountAll, if_neg hoff]
  refine ⟨_, hfind, ?_, ?_, ?_⟩
  · have h1 : (((orderByCreatedAtDesc (db.users.filter (whereMatch qp nl))).drop
        ((page - 1) * limit).toNat).take limit.toNat).length ≤ limit.toNat := by
      simp [List.length_take]
    calc ((((orderByCreatedAtDesc (db.users.filter (whereMatch qp nl))).drop
          ((page - 1) * limit).toNat).take limit.toNat).length : Int)
        ≤ (limit.toNat : Int) := by exact_mod_cast h1
      _ = limit := Int.toNat_of_nonneg (by omega)
  · have hlpos : 0 < limit.toNat := by omega
    have hcast : ((limit.toNat : ℕ) : ℚ) = (limit : ℚ) := by
      have h := Int.toNat_of_nonneg (by omega : (0 : ℤ) ≤ limit)
      exact_mod_cast h
    rw [jsCeilDiv_eq_ceil _ _ hlpos, hcast]
  · simp only [homeHandler]
    rw [hps, hls]
    simp only [Except.bind]
    rw [hfind]

/-- C2 instance: four users, `page=2`, `limit=3`: one row comes back and
`totalPages = ceil(4/3) = 2`. -/
theorem listing_pagination_witness :
    ∃ r : FindResult,
      findAndCountAll sampleUsers none none 3 ((2 - 1) * 3) = .ok r
      ∧ (r.rows.length : Int) ≤ 3
      ∧ jsCeilDiv r.count (3 : Int).toNat = ⌈(r.count : ℚ) / ((3 : Int) : ℚ)⌉₊
      ∧ homeHandler { page := some "2", limit := some "3", q := none,
                      newsletter := none } (.ok sampleUsers)
          = (Response.renderHome
              { users := r.rows, currentPage := some 2,
                totalPages := some (Int.ofNat (jsCeilDiv r.count (3 : Int).toNat)),
                q := none, newsletter := none, error := none }, []) :=
  listing_pagination sampleUsers none none (some "2") (some "3") 2 3
    (by decide) (by decide) (by decide) (by decide)

/-- C10: a page query that parses to NaN or 0 is coerced to 1 and a limit
query that parses to NaN or 0 is coerced to 3, so the coerced limit the
listing passes to the query — and divides by in `ceil(count/limit)` — is
never zero. -/
theorem listing_defaults (ps ls : Option String) :
    ((jsParseInt ps = none ∨ jsParseInt ps = some 0) → jsOr (jsParseInt ps) 1 = 1)
    ∧ ((jsParseInt ls = none ∨ jsParseInt ls = some 0) → jsOr (jsParseInt ls) 3 = 3)
    ∧ jsOr (jsParseInt ls) 3 ≠ 0 := by
  refine ⟨?_, ?_, ?_⟩
  · rintro (h | h) <;> simp [jsOr, h]
  · rintro (h | h) <;> simp [jsOr, h]
  · cases h : jsParseInt ls with
    | none => simp [jsOr]
    | some n =>
      simp only [jsOr]
      split
      · simp
      · omega
